import Mathlib

/-!
Verification of the `cubulous_client` renderer core against its design
specification.  The Rust sources embedded here are
`src/renderer/render_target.rs`, `src/renderer/frame_buffers.rs` and
`src/renderer/renderer.rs`.  GPU handles (semaphores, fences, command
buffers, image views, swap chains, pipelines, buffers) are opaque
identifiers modelled as `Nat`; the calls made against the graphics
device are modelled as an explicit `Action` trace.  Machine integers
(`u32`) are modelled as `Nat`; the only place where the `u32` range
matters is the `u32::MAX` sentinel of `choose_swap_extent`, which is
kept explicit.
-/

namespace Cubulous

/-- `vk::Extent2D`: a width/height pair (`u32` fields modelled as `Nat`). -/
structure Extent2D where
  width : Nat
  height : Nat
deriving Repr, DecidableEq

/-- The value of Rust's `u32::MAX`, used by `choose_swap_extent` as the
Vulkan "surface size is determined by the swap chain" sentinel. -/
def U32_MAX : Nat := 2 ^ 32 - 1

/-- `num::clamp(input, min, max)` from the `num` crate, as used in
`render_target.rs`: returns `min` if `input < min`, `max` if
`input > max`, and `input` otherwise. -/
def numClamp (input lo hi : Nat) : Nat :=
  if input < lo then lo else if input > hi then hi else input

/-- The fields of `vk::SurfaceCapabilitiesKHR` read by `RenderTarget::new`. -/
structure SurfaceCapabilities where
  current_extent : Extent2D
  min_image_extent : Extent2D
  max_image_extent : Extent2D
  min_image_count : Nat
  max_image_count : Nat
deriving Repr, DecidableEq

/-- `choose_swap_extent` from `render_target.rs` (lines 27-41): if
`capabilities.current_extent.width != u32::MAX` the capability-reported
current extent is returned verbatim; otherwise (the unconstrained
sentinel) the window's inner size is clamped componentwise to the
capability-reported min/max image extent. -/
def choose_swap_extent (windowInnerSize : Extent2D) (capabilities : SurfaceCapabilities) :
    Extent2D :=
  if capabilities.current_extent.width ≠ U32_MAX then
    capabilities.current_extent
  else
    { width := numClamp windowInnerSize.width
        capabilities.min_image_extent.width capabilities.max_image_extent.width,
      height := numClamp windowInnerSize.height
        capabilities.min_image_extent.height capabilities.max_image_extent.height }

/-- The swap-chain image count computed in `RenderTarget::new`
(`render_target.rs` lines 111-114): `min_image_count + 1`, overwritten
by `max_image_count` when the maximum is nonzero and exceeded. -/
def swap_image_count (capabilities : SurfaceCapabilities) : Nat :=
  let image_count := capabilities.min_image_count + 1
  if capabilities.max_image_count > 0 ∧ image_count > capabilities.max_image_count then
    capabilities.max_image_count
  else
    image_count

/-- Concrete capabilities whose `current_extent.width` is the `u32::MAX`
sentinel, with a window size strictly inside the min/max range. -/
def capsSentinel : SurfaceCapabilities :=
  { current_extent := { width := U32_MAX, height := 100 },
    min_image_extent := { width := 10, height := 10 },
    max_image_extent := { width := 20, height := 20 },
    min_image_count := 2,
    max_image_count := 0 }

/-- Concrete capabilities with a fixed (non-sentinel) current extent. -/
def capsFixed : SurfaceCapabilities :=
  { current_extent := { width := 800, height := 600 },
    min_image_extent := { width := 10, height := 10 },
    max_image_extent := { width := 2000, height := 2000 },
    min_image_count := 2,
    max_image_count := 0 }

/-- Componentwise bounds of `numClamp`. -/
theorem numClamp_mem (input lo hi : Nat) (h : lo ≤ hi) :
    lo ≤ numClamp input lo hi ∧ numClamp input lo hi ≤ hi := by
  unfold numClamp
  split <;> [omega; (split <;> omega)]

/-- Counterexample to C1: with capabilities reporting the sentinel
(`current_extent.width = u32::MAX`) the code clamps the window size and
does not return the current extent verbatim, and with a non-sentinel
current extent the code returns the current extent verbatim instead of
the clamped window size — the two cases of the claim are swapped. -/
theorem choose_swap_extent_sentinel_claim_false :
    capsSentinel.current_extent.width = U32_MAX ∧
    choose_swap_extent { width := 15, height := 15 } capsSentinel ≠
      capsSentinel.current_extent ∧
    choose_swap_extent { width := 15, height := 15 } capsSentinel =
      { width := 15, height := 15 } ∧
    capsFixed.current_extent.width ≠ U32_MAX ∧
    choose_swap_extent { width := 15, height := 15 } capsFixed =
      capsFixed.current_extent := by
  refine ⟨rfl, ?_, ?_, ?_, ?_⟩ <;> decide

/-- C1 (amended): the chosen extent equals the capability-reported
current extent verbatim when `current_extent.width ≠ u32::MAX`, and
equals the window size clamped to `[min_image_extent, max_image_extent]`
when `current_extent.width = u32::MAX`; consequently (for consistent
capabilities, min ≤ max componentwise) the chosen extent is within the
reported bounds in the sentinel case. -/
theorem choose_swap_extent_amended (windowInnerSize : Extent2D)
    (capabilities : SurfaceCapabilities)
    (hw : capabilities.min_image_extent.width ≤ capabilities.max_image_extent.width)
    (hh : capabilities.min_image_extent.height ≤ capabilities.max_image_extent.height) :
    (capabilities.current_extent.width ≠ U32_MAX →
      choose_swap_extent windowInnerSize capabilities = capabilities.current_extent) ∧
    (capabilities.current_extent.width = U32_MAX →
      choose_swap_extent windowInnerSize capabilities =
        { width := numClamp windowInnerSize.width
            capabilities.min_image_extent.width capabilities.max_image_extent.width,
          height := numClamp windowInnerSize.height
            capabilities.min_image_extent.height capabilities.max_image_extent.height } ∧
      capabilities.min_image_extent.width ≤
          (choose_swap_extent windowInnerSize capabilities).width ∧
      (choose_swap_extent windowInnerSize capabilities).width ≤
          capabilities.max_image_extent.width ∧
      capabilities.min_image_extent.height ≤
          (choose_swap_extent windowInnerSize capabilities).height ∧
      (choose_swap_extent windowInnerSize capabilities).height ≤
          capabilities.max_image_extent.height) := by
  constructor
  · intro hne
    simp [choose_swap_extent, hne]
  · intro heq
    have hce : choose_swap_extent windowInnerSize capabilities =
        { width := numClamp windowInnerSize.width
            capabilities.min_image_extent.width capabilities.max_image_extent.width,
          height := numClamp windowInnerSize.height
            capabilities.min_image_extent.height capabilities.max_image_extent.height } := by
      simp [choose_swap_extent, heq]
    refine ⟨hce, ?_, ?_, ?_, ?_⟩ <;> rw [hce] <;>
      first
      | exact (numClamp_mem windowInnerSize.width _ _ hw).1
      | exact (numClamp_mem windowInnerSize.width _ _ hw).2
      | exact (numClamp_mem windowInnerSize.height _ _ hh).1
      | exact (numClamp_mem windowInnerSize.height _ _ hh).2

/-- Witness for `choose_swap_extent_amended` at concrete inputs. -/
theorem choose_swap_extent_amended_witness :
    capsSentinel.min_image_extent.width ≤ capsSentinel.max_image_extent.width ∧
    capsSentinel.min_image_extent.height ≤ capsSentinel.max_image_extent.height ∧
    (capsSentinel.current_extent.width = U32_MAX →
      capsSentinel.min_image_extent.width ≤
        (choose_swap_extent { width := 15, height := 15 } capsSentinel).width) :=
  ⟨by decide, by decide, fun h =>
    (((choose_swap_extent_amended { width := 15, height := 15 } capsSentinel
        (by decide) (by decide)).2 h).2).1⟩

/-- C7: the requested image count is `min_image_count + 1`, clamped down
to `max_image_count` when the maximum is nonzero; in particular the two
scenarios (min=2, max=0) ↦ 3 and (min=2, max=2) ↦ 2. -/
theorem swap_image_count_rule :
    (∀ capabilities : SurfaceCapabilities,
      swap_image_count capabilities =
        if capabilities.max_image_count = 0 then capabilities.min_image_count + 1
        else min (capabilities.min_image_count + 1) capabilities.max_image_count) ∧
    swap_image_count capsSentinel = 3 ∧
    swap_image_count { capsSentinel with min_image_count := 2, max_image_count := 2 } = 2 := by
  refine ⟨fun capabilities => ?_, by decide, by decide⟩
  simp only [swap_image_count]
  split <;> split <;> omega

/-- `RenderTarget` from `render_target.rs`: the swap chain handle, the
chosen surface format, the chosen extent and the per-image image views
(`swap_loader` is a function table, not state, and is omitted). -/
structure RenderTarget where
  swap_chain : Nat
  surface_format : Nat
  extent : Extent2D
  image_views : List Nat
deriving Repr, DecidableEq

/-- The fields of the `vk::FramebufferCreateInfo` built for each image
view in `setup_frame_buffers` (`frame_buffers.rs` lines 12-17); a
created framebuffer is identified with its creation parameters. -/
structure FramebufferCreateInfo where
  render_pass : Nat
  attachments : List Nat
  width : Nat
  height : Nat
  layers : Nat
deriving Repr, DecidableEq

/-- `setup_frame_buffers` from `frame_buffers.rs` (lines 7-23): one
framebuffer per image view of the render target, pushed in order, each
with that single view as its only attachment, the render target's
extent as dimensions and one layer. -/
def setup_frame_buffers (render_pass : Nat) (render_target : RenderTarget) :
    List FramebufferCreateInfo :=
  render_target.image_views.foldl
    (fun frame_buffers v =>
      frame_buffers ++
        [{ render_pass := render_pass, attachments := [v],
           width := render_target.extent.width,
           height := render_target.extent.height, layers := 1 }])
    []

/-- Calls issued against the device/queue, recorded as a trace. -/
inductive Action where
  | deviceWaitIdle
  | destroyFramebuffer (fb : FramebufferCreateInfo)
  | destroyImageView (view : Nat)
  | destroySwapchain (chain : Nat)
  | createRenderTarget (rt : RenderTarget)
  | createFrameBuffers
  | waitForFences (fence : Nat)
  | acquireNextImage (signalSem : Nat)
  | resetFences (fence : Nat)
  | resetCommandBuffer (cb : Nat)
  | beginCommandBuffer (cb : Nat)
  | beginRenderPass (cb : Nat) (fb : FramebufferCreateInfo) (render_pass : Nat)
      (render_area : Extent2D)
  | bindPipeline (cb : Nat) (pipeline : Nat)
  | bindVertexBuffers (cb : Nat) (buf : Nat)
  | bindIndexBuffer (cb : Nat) (buf : Nat)
  | setViewport (cb : Nat) (size : Extent2D)
  | setScissor (cb : Nat) (size : Extent2D)
  | drawIndexed (cb : Nat)
  | endRenderPass (cb : Nat)
  | endCommandBuffer (cb : Nat)
  | queueSubmit (cb waitSem signalSem fence : Nat)
  | queuePresent (imageIndex : Nat) (waitSem : Nat)
deriving Repr, DecidableEq

/-- The fields of `CubulousRenderer` (`renderer.rs` lines 58-74) that
the verified claims are about; `core`, `physical_layer` and
`logical_layer` are external collaborators and appear only through the
actions they receive. -/
structure Renderer where
  render_pass : Nat
  raster_pipeline : Nat
  render_target : RenderTarget
  frame_buffers : List FramebufferCreateInfo
  command_pool : Nat
  command_buffers : List Nat
  image_available_sems : List Nat
  render_finished_sems : List Nat
  in_flight_fences : List Nat
  current_frame : Nat
  vertex_buffer : Nat
  index_buffer : Nat
deriving Repr, DecidableEq

/-- `MAX_FRAMES_IN_FLIGHT` from `renderer.rs` line 34. -/
def MAX_FRAMES_IN_FLIGHT : Nat := 2

/-- `CubulousRenderer::new` (`renderer.rs` lines 77-164), restricted to
the state the claims mention: the framebuffers are built by
`setup_frame_buffers` from the initial render target, the command
buffers and the three synchronization-object vectors each hold
`MAX_FRAMES_IN_FLIGHT` device-created handles (supplied here by the
generator functions), and `current_frame` starts at `0`. -/
def CubulousRenderer.new (render_target : RenderTarget)
    (render_pass raster_pipeline command_pool vertex_buffer index_buffer : Nat)
    (cmdBufHandle availSemHandle finishedSemHandle fenceHandle : Nat → Nat) : Renderer :=
  { render_pass := render_pass,
    raster_pipeline := raster_pipeline,
    render_target := render_target,
    frame_buffers := setup_frame_buffers render_pass render_target,
    command_pool := command_pool,
    command_buffers := (List.range MAX_FRAMES_IN_FLIGHT).map cmdBufHandle,
    image_available_sems := (List.range MAX_FRAMES_IN_FLIGHT).map availSemHandle,
    render_finished_sems := (List.range MAX_FRAMES_IN_FLIGHT).map finishedSemHandle,
    in_flight_fences := (List.range MAX_FRAMES_IN_FLIGHT).map fenceHandle,
    current_frame := 0,
    vertex_buffer := vertex_buffer,
    index_buffer := index_buffer }

/-- `RenderTarget::destroy` (`render_target.rs` lines 159-167): destroy
every image view in order, then the swap chain. -/
def RenderTarget.destroyActions (rt : RenderTarget) : List Action :=
  rt.image_views.map (fun v => Action.destroyImageView v) ++
    [Action.destroySwapchain rt.swap_chain]

/-- `destroy_frame_buffers` (`frame_buffers.rs` lines 25-29): destroy
every framebuffer in order. -/
def destroy_frame_buffers (frame_buffers : List FramebufferCreateInfo) : List Action :=
  frame_buffers.map (fun f => Action.destroyFramebuffer f)

/-- `cleanup_swap_chain` (`renderer.rs` lines 315-320): wait for the
device to go idle, destroy the framebuffers, then the render target. -/
def cleanup_swap_chain (r : Renderer) : List Action :=
  Action.deviceWaitIdle ::
    (destroy_frame_buffers r.frame_buffers ++ r.render_target.destroyActions)

/-- `recreate_swap_chain` (`renderer.rs` lines 322-327): run
`cleanup_swap_chain`, then install a freshly created render target
(`newRT`, produced by the external `RenderTarget::new`) and
framebuffers built from it; every other field is untouched. -/
def recreate_swap_chain (r : Renderer) (newRT : RenderTarget) : Renderer × List Action :=
  ({ r with render_target := newRT,
            frame_buffers := setup_frame_buffers r.render_pass newRT },
   cleanup_swap_chain r ++ [Action.createRenderTarget newRT, Action.createFrameBuffers])

/-- `record_command_buffer` (`renderer.rs` lines 184-259).  The
framebuffer is selected by unchecked indexing
`self.frame_buffers[image_index as usize]` (line 224): out of bounds is
a Rust panic, modelled as `none`.  The command buffer is selected by
`self.command_buffers.get(self.current_frame)` (line 232). -/
def record_command_buffer (r : Renderer) (image_index : Nat) : Option (List Action) :=
  match r.frame_buffers[image_index]? with
  | none => none
  | some fb =>
    let command_buffer := r.command_buffers.getD r.current_frame 0
    some [Action.beginCommandBuffer command_buffer,
          Action.beginRenderPass command_buffer fb r.render_pass r.render_target.extent,
          Action.bindPipeline command_buffer r.raster_pipeline,
          Action.bindVertexBuffers command_buffer r.vertex_buffer,
          Action.bindIndexBuffer command_buffer r.index_buffer,
          Action.setViewport command_buffer r.render_target.extent,
          Action.setScissor command_buffer r.render_target.extent,
          Action.drawIndexed command_buffer,
          Action.endRenderPass command_buffer,
          Action.endCommandBuffer command_buffer]

/-- The `vk::Result` error codes appearing in the match arms of
`draw_frame` (`renderer.rs` lines 283-286 and 304-307). -/
inductive VkErr where
  | errorOutOfDateKhr
  | suboptimalKhr
  | other
deriving Repr, DecidableEq

/-- How a `draw_frame` call ends: `completed` (ran through submission,
presentation and the frame-index advance), `stale` (early return after
`acquire_next_image` reported `ERROR_OUT_OF_DATE_KHR`), or `panicked`
(a Rust `panic!` / failed `unwrap`, aborting the process). -/
inductive DrawOutcome where
  | completed
  | stale
  | panicked
deriving Repr, DecidableEq

/-- `draw_frame` (`renderer.rs` lines 261-313).  `acq` is the result of
`swap_loader.acquire_next_image` — in the `ash` binding `Ok` carries the
acquired image index together with a suboptimal flag, and errors arrive
as `Err` codes; `pres` is the result of `swap_loader.queue_present`.
`newRT` is the render target an eventual `RenderTarget::new` inside
`recreate_swap_chain` would produce.  Returns the renderer state after
the call, the outcome, and the trace of device actions performed. -/
def draw_frame (r : Renderer) (acq : Except VkErr (Nat × Bool))
    (pres : Except VkErr Bool) (newRT : RenderTarget) :
    Renderer × DrawOutcome × List Action :=
  let fence := r.in_flight_fences.getD r.current_frame 0
  let wait_sem := r.image_available_sems.getD r.current_frame 0
  let sig_sem := r.render_finished_sems.getD r.current_frame 0
  let command_buffer := r.command_buffers.getD r.current_frame 0
  let acquired : List Action := [Action.waitForFences fence, Action.acquireNextImage wait_sem]
  match acq with
  | Except.error VkErr.errorOutOfDateKhr =>
      let rr := recreate_swap_chain r newRT
      (rr.1, DrawOutcome.stale, acquired ++ rr.2)
  | Except.error _ => (r, DrawOutcome.panicked, acquired)
  | Except.ok (next_image_idx, _) =>
      let reset : List Action :=
        acquired ++ [Action.resetFences fence, Action.resetCommandBuffer command_buffer]
      match record_command_buffer r next_image_idx with
      | none => (r, DrawOutcome.panicked, reset)
      | some recording =>
          let submitted : List Action :=
            reset ++ recording ++
              [Action.queueSubmit command_buffer wait_sem sig_sem fence,
               Action.queuePresent next_image_idx sig_sem]
          match pres with
          | Except.error VkErr.errorOutOfDateKhr | Except.error VkErr.suboptimalKhr =>
              let rr := recreate_swap_chain r newRT
              ({ rr.1 with current_frame := (r.current_frame + 1) % MAX_FRAMES_IN_FLIGHT },
               DrawOutcome.completed, submitted ++ rr.2)
          | Except.error VkErr.other => (r, DrawOutcome.panicked, submitted)
          | Except.ok _ =>
              ({ r with current_frame := (r.current_frame + 1) % MAX_FRAMES_IN_FLIGHT },
               DrawOutcome.completed, submitted)

/-- Discriminator: is this action the creation of a new render target
(the visible start of a swap-chain recreation)? -/
def Action.isCreateRenderTarget : Action → Bool
  | Action.createRenderTarget _ => true
  | _ => false

/-- Discriminator for `reset_fences` actions. -/
def Action.isResetFences : Action → Bool
  | Action.resetFences _ => true
  | _ => false

/-- Discriminator for `reset_command_buffer` actions. -/
def Action.isResetCommandBuffer : Action → Bool
  | Action.resetCommandBuffer _ => true
  | _ => false

/-- Discriminator for `begin_command_buffer` actions (the start of a
command-buffer re-recording). -/
def Action.isBeginCommandBuffer : Action → Bool
  | Action.beginCommandBuffer _ => true
  | _ => false

/-- Discriminator for `queue_submit` actions. -/
def Action.isQueueSubmit : Action → Bool
  | Action.queueSubmit _ _ _ _ => true
  | _ => false

/-- Discriminator for `queue_present` actions. -/
def Action.isQueuePresent : Action → Bool
  | Action.queuePresent _ _ => true
  | _ => false

/-- A concrete initial render target with three swap-chain images. -/
def rt0 : RenderTarget :=
  { swap_chain := 1, surface_format := 7,
    extent := { width := 640, height := 480 }, image_views := [10, 11, 12] }

/-- A concrete replacement render target (as after a resize). -/
def rt1 : RenderTarget :=
  { swap_chain := 2, surface_format := 7,
    extent := { width := 800, height := 600 }, image_views := [20, 21, 22] }

/-- A concrete freshly constructed renderer over `rt0`. -/
def r0 : Renderer :=
  CubulousRenderer.new rt0 3 4 5 6 7
    (fun i => 30 + i) (fun i => 40 + i) (fun i => 50 + i) (fun i => 60 + i)

/-- Unfolding the push loop of `setup_frame_buffers` into a `map`. -/
theorem foldl_push_eq_map {α β : Type} (f : α → β) (l : List α) (acc0 : List β) :
    l.foldl (fun acc v => acc ++ [f v]) acc0 = acc0 ++ l.map f := by
  induction l generalizing acc0 with
  | nil => simp
  | cons x xs ih => simp [ih]

/-- C8: `setup_frame_buffers` creates exactly one framebuffer per
surface image view — each with that view as its only attachment, the
surface extent as dimensions and one layer — so after renderer
construction and after every swap-chain recreation the framebuffer
count equals the image-view count of the presentation surface. -/
theorem frame_buffers_one_per_image_view :
    (∀ (render_pass : Nat) (rt : RenderTarget),
      setup_frame_buffers render_pass rt =
        rt.image_views.map (fun v =>
          { render_pass := render_pass, attachments := [v],
            width := rt.extent.width, height := rt.extent.height, layers := 1 })) ∧
    (∀ (render_pass : Nat) (rt : RenderTarget),
      (setup_frame_buffers render_pass rt).length = rt.image_views.length) ∧
    (∀ (rt : RenderTarget) (rp pl cp vb ib : Nat) (g1 g2 g3 g4 : Nat → Nat),
      (CubulousRenderer.new rt rp pl cp vb ib g1 g2 g3 g4).frame_buffers.length
        = rt.image_views.length) ∧
    (∀ (r : Renderer) (newRT : RenderTarget),
      (recreate_swap_chain r newRT).1.frame_buffers.length = newRT.image_views.length) := by
  have hmap : ∀ (render_pass : Nat) (rt : RenderTarget),
      setup_frame_buffers render_pass rt =
        rt.image_views.map (fun v =>
          { render_pass := render_pass, attachments := [v],
            width := rt.extent.width, height := rt.extent.height, layers := 1 }) := by
    intro render_pass rt
    simpa using foldl_push_eq_map
      (fun v => ({ render_pass := render_pass, attachments := [v],
                   width := rt.extent.width, height := rt.extent.height,
                   layers := 1 } : FramebufferCreateInfo))
      rt.image_views []
  have hlen : ∀ (render_pass : Nat) (rt : RenderTarget),
      (setup_frame_buffers render_pass rt).length = rt.image_views.length := by
    intro render_pass rt
    rw [hmap]
    exact List.length_map _ _
  exact ⟨hmap, hlen, fun rt rp _ _ _ _ _ _ _ _ => hlen rp rt,
    fun r newRT => hlen r.render_pass newRT⟩

/-- C9: swap-chain recreation replaces only the render target and the
framebuffers; the action order is wait-idle, destroy framebuffers,
destroy image views then swap chain, recreate the render target,
recreate the framebuffers; all other renderer fields are unchanged. -/
theorem recreate_swap_chain_replaces_only_target_and_framebuffers
    (r : Renderer) (newRT : RenderTarget) :
    (recreate_swap_chain r newRT).1.render_target = newRT ∧
    (recreate_swap_chain r newRT).1.frame_buffers =
      setup_frame_buffers r.render_pass newRT ∧
    (recreate_swap_chain r newRT).1.image_available_sems = r.image_available_sems ∧
    (recreate_swap_chain r newRT).1.render_finished_sems = r.render_finished_sems ∧
    (recreate_swap_chain r newRT).1.in_flight_fences = r.in_flight_fences ∧
    (recreate_swap_chain r newRT).1.command_pool = r.command_pool ∧
    (recreate_swap_chain r newRT).1.command_buffers = r.command_buffers ∧
    (recreate_swap_chain r newRT).1.current_frame = r.current_frame ∧
    (recreate_swap_chain r newRT).1.raster_pipeline = r.raster_pipeline ∧
    (recreate_swap_chain r newRT).1.render_pass = r.render_pass ∧
    (recreate_swap_chain r newRT).1.vertex_buffer = r.vertex_buffer ∧
    (recreate_swap_chain r newRT).1.index_buffer = r.index_buffer ∧
    (recreate_swap_chain r newRT).2 =
      Action.deviceWaitIdle ::
        ((destroy_frame_buffers r.frame_buffers ++
            RenderTarget.destroyActions r.render_target) ++
          [Action.createRenderTarget newRT, Action.createFrameBuffers]) := by
  refine ⟨rfl, rfl, rfl, rfl, rfl, rfl, rfl, rfl, rfl, rfl, rfl, rfl, rfl⟩

/-- C10: `record_command_buffer` indexes `frame_buffers` with the
acquired image index unchecked; it is defined (does not hit the panic
branch) exactly when that index is below the framebuffer count. -/
theorem record_command_buffer_defined_iff_index_in_bounds
    (r : Renderer) (image_index : Nat) :
    (record_command_buffer r image_index).isSome ↔
      image_index < r.frame_buffers.length := by
  rcases hfb : r.frame_buffers[image_index]? with _ | fb
  · have hlen := List.getElem?_eq_none_iff.mp hfb
    simp only [record_command_buffer, hfb, Option.isSome_none, Bool.false_eq_true,
      false_iff]
    omega
  · have hlt : image_index < r.frame_buffers.length := by
      by_contra hc
      rw [List.getElem?_eq_none_iff.mpr (by omega)] at hfb
      cases hfb
    simp only [record_command_buffer, hfb, Option.isSome_some, true_iff]
    exact hlt

/-- C3: when image acquisition reports `ERROR_OUT_OF_DATE_KHR`,
`draw_frame` recreates the swap chain and returns without resetting the
slot fence, without resetting or re-recording the command buffer,
without submitting, without presenting, and without advancing
`current_frame`. -/
theorem draw_frame_acquire_out_of_date_skips_frame
    (r : Renderer) (pres : Except VkErr Bool) (newRT : RenderTarget) :
    (draw_frame r (Except.error VkErr.errorOutOfDateKhr) pres newRT).1.current_frame
        = r.current_frame ∧
    (draw_frame r (Except.error VkErr.errorOutOfDateKhr) pres newRT).2.1
        = DrawOutcome.stale ∧
    ((draw_frame r (Except.error VkErr.errorOutOfDateKhr) pres newRT).2.2.any
        Action.isCreateRenderTarget) = true ∧
    ((draw_frame r (Except.error VkErr.errorOutOfDateKhr) pres newRT).2.2.all
        (fun a => !(a.isResetFences || a.isResetCommandBuffer ||
          a.isBeginCommandBuffer || a.isQueueSubmit || a.isQueuePresent))) = true := by
  refine ⟨rfl, rfl, ?_, ?_⟩ <;>
    simp [draw_frame, recreate_swap_chain, cleanup_swap_chain, destroy_frame_buffers,
      RenderTarget.destroyActions, Action.isCreateRenderTarget, Action.isResetFences,
      Action.isResetCommandBuffer, Action.isBeginCommandBuffer, Action.isQueueSubmit,
      Action.isQueuePresent, List.any_append, List.all_append, List.all_map,
      List.any_map, Function.comp]

/-- Counterexample to C2: a suboptimal status reported at acquisition
time (the `ash` `acquire_next_image` success flag) is ignored — the
frame completes normally and no swap-chain recreation happens. -/
theorem draw_frame_acquire_suboptimal_ignored :
    ((draw_frame r0 (Except.ok (0, true)) (Except.ok false) rt1).2.2.any
        Action.isCreateRenderTarget) = false ∧
    (draw_frame r0 (Except.ok (0, true)) (Except.ok false) rt1).2.1
        = DrawOutcome.completed := by
  constructor <;> decide

/-- C2 (amended): `ERROR_OUT_OF_DATE_KHR` at acquisition, and
`ERROR_OUT_OF_DATE_KHR` or `SUBOPTIMAL_KHR` error codes at
presentation, trigger swap-chain recreation; the suboptimal flag of a
successful acquisition is ignored (no recreation); any other
acquisition or presentation error is fatal (panic). -/
theorem draw_frame_staleness_handling_amended :
    (∀ (r : Renderer) (pres : Except VkErr Bool) (newRT : RenderTarget),
      ((draw_frame r (Except.error VkErr.errorOutOfDateKhr) pres newRT).2.2.any
          Action.isCreateRenderTarget) = true) ∧
    (∀ (r : Renderer) (image_index : Nat) (b : Bool) (newRT : RenderTarget),
      image_index < r.frame_buffers.length →
      ((draw_frame r (Except.ok (image_index, b))
          (Except.error VkErr.errorOutOfDateKhr) newRT).2.2.any
          Action.isCreateRenderTarget) = true) ∧
    (∀ (r : Renderer) (image_index : Nat) (b : Bool) (newRT : RenderTarget),
      image_index < r.frame_buffers.length →
      ((draw_frame r (Except.ok (image_index, b))
          (Except.error VkErr.suboptimalKhr) newRT).2.2.any
          Action.isCreateRenderTarget) = true) ∧
    (∀ (r : Renderer) (pres : Except VkErr Bool) (newRT : RenderTarget),
      (draw_frame r (Except.error VkErr.other) pres newRT).2.1
        = DrawOutcome.panicked) ∧
    (∀ (r : Renderer) (image_index : Nat) (b : Bool) (newRT : RenderTarget),
      image_index < r.frame_buffers.length →
      (draw_frame r (Except.ok (image_index, b))
          (Except.error VkErr.other) newRT).2.1 = DrawOutcome.panicked) ∧
    (∀ (r : Renderer) (image_index : Nat) (sub2 : Bool) (newRT : RenderTarget),
      ((draw_frame r (Except.ok (image_index, true))
          (Except.ok sub2) newRT).2.2.any Action.isCreateRenderTarget) = false) := by
  refine ⟨?_, ?_, ?_, ?_, ?_, ?_⟩
  · intro r pres newRT
    simp [draw_frame, recreate_swap_chain, cleanup_swap_chain, List.any_append,
      Action.isCreateRenderTarget]
  · intro r image_index b newRT h
    have hfb := List.getElem?_eq_getElem (l := r.frame_buffers) (n := image_index) h
    simp [draw_frame, record_command_buffer, hfb, recreate_swap_chain,
      cleanup_swap_chain, List.any_append, Action.isCreateRenderTarget]
  · intro r image_index b newRT h
    have hfb := List.getElem?_eq_getElem (l := r.frame_buffers) (n := image_index) h
    simp [draw_frame, record_command_buffer, hfb, recreate_swap_chain,
      cleanup_swap_chain, List.any_append, Action.isCreateRenderTarget]
  · intro r pres newRT
    rfl
  · intro r image_index b newRT h
    have hfb := List.getElem?_eq_getElem (l := r.frame_buffers) (n := image_index) h
    simp [draw_frame, record_command_buffer, hfb]
  · intro r image_index sub2 newRT
    rcases hfb : r.frame_buffers[image_index]? with _ | fb <;>
      simp [draw_frame, record_command_buffer, hfb, List.any_append,
        Action.isCreateRenderTarget, destroy_frame_buffers, List.any_map,
        Function.comp]

/-- Witness for `draw_frame_staleness_handling_amended`: a present-time
`SUBOPTIMAL_KHR` error at a concrete renderer triggers recreation. -/
theorem draw_frame_staleness_handling_amended_witness :
    (0 : Nat) < r0.frame_buffers.length ∧
    ((draw_frame r0 (Except.ok (0, false))
        (Except.error VkErr.suboptimalKhr) rt1).2.2.any
        Action.isCreateRenderTarget) = true :=
  ⟨by decide,
    draw_frame_staleness_handling_amended.2.2.1 r0 0 false rt1 (by decide)⟩

/-- C5: command-buffer re-recording targets the framebuffer selected by
the acquired image index, while the recorded command buffer, the wait
and signal semaphores and the fence of the submission are all selected
by the slot index `current_frame`. -/
theorem record_targets_acquired_image_slot_resources
    (r : Renderer) (image_index : Nat) (b : Bool) (pres : Except VkErr Bool)
    (newRT : RenderTarget) (fb : FramebufferCreateInfo)
    (hfb : r.frame_buffers[image_index]? = some fb) :
    Action.beginRenderPass (r.command_buffers.getD r.current_frame 0) fb
        r.render_pass r.render_target.extent
      ∈ (draw_frame r (Except.ok (image_index, b)) pres newRT).2.2 ∧
    Action.queueSubmit (r.command_buffers.getD r.current_frame 0)
        (r.image_available_sems.getD r.current_frame 0)
        (r.render_finished_sems.getD r.current_frame 0)
        (r.in_flight_fences.getD r.current_frame 0)
      ∈ (draw_frame r (Except.ok (image_index, b)) pres newRT).2.2 ∧
    Action.waitForFences (r.in_flight_fences.getD r.current_frame 0)
      ∈ (draw_frame r (Except.ok (image_index, b)) pres newRT).2.2 ∧
    Action.queuePresent image_index (r.render_finished_sems.getD r.current_frame 0)
      ∈ (draw_frame r (Except.ok (image_index, b)) pres newRT).2.2 := by
  rcases pres with e | sub
  · cases e <;> refine ⟨?_, ?_, ?_, ?_⟩ <;>
      simp [draw_frame, record_command_buffer, hfb]
  · refine ⟨?_, ?_, ?_, ?_⟩ <;> simp [draw_frame, record_command_buffer, hfb]

/-- Witness for `record_targets_acquired_image_slot_resources`: slot 0
records into framebuffer 1 (the acquired image), which differs from
framebuffer 0 (the slot index) — the two indices are independent. -/
theorem record_targets_acquired_image_slot_resources_witness :
    r0.frame_buffers[1]? =
      some { render_pass := 3, attachments := [11], width := 640, height := 480,
             layers := 1 } ∧
    r0.frame_buffers[1]? ≠ r0.frame_buffers[0]? ∧
    r0.current_frame = 0 ∧
    Action.beginRenderPass (r0.command_buffers.getD r0.current_frame 0)
        { render_pass := 3, attachments := [11], width := 640, height := 480,
          layers := 1 }
        r0.render_pass r0.render_target.extent
      ∈ (draw_frame r0 (Except.ok (1, false)) (Except.ok false) rt1).2.2 :=
  ⟨by decide, by decide, by decide,
    (record_targets_acquired_image_slot_resources r0 1 false (Except.ok false) rt1 _
      (by decide)).1⟩

/-- C6: every `draw_frame` call whose acquisition succeeded (and that
does not abort the process) advances `current_frame` to
`(current_frame + 1) % MAX_FRAMES_IN_FLIGHT` exactly once — also when
presentation reports out-of-date or suboptimal and recreation runs. -/
theorem draw_frame_advances_current_frame
    (r : Renderer) (image_index : Nat) (b : Bool) (pres : Except VkErr Bool)
    (newRT : RenderTarget) (h : image_index < r.frame_buffers.length)
    (hp : pres ≠ Except.error VkErr.other) :
    (draw_frame r (Except.ok (image_index, b)) pres newRT).1.current_frame
        = (r.current_frame + 1) % MAX_FRAMES_IN_FLIGHT ∧
    (draw_frame r (Except.ok (image_index, b)) pres newRT).2.1
        = DrawOutcome.completed := by
  have hfb := List.getElem?_eq_getElem (l := r.frame_buffers) (n := image_index) h
  rcases pres with e | sub
  · cases e <;> first
      | exact absurd rfl hp
      | constructor <;> simp [draw_frame, record_command_buffer, hfb]
  · constructor <;> simp [draw_frame, record_command_buffer, hfb]

/-- Witness for `draw_frame_advances_current_frame`: the slot index
advances from 0 to 1 even when presentation reports `SUBOPTIMAL_KHR`
and the swap chain is recreated. -/
theorem draw_frame_advances_current_frame_witness :
    (0 : Nat) < r0.frame_buffers.length ∧
    (Except.error VkErr.suboptimalKhr : Except VkErr Bool) ≠
      Except.error VkErr.other ∧
    (draw_frame r0 (Except.ok (0, false))
        (Except.error VkErr.suboptimalKhr) rt1).1.current_frame
      = (r0.current_frame + 1) % MAX_FRAMES_IN_FLIGHT :=
  ⟨by decide, by simp,
    (draw_frame_advances_current_frame r0 0 false
      (Except.error VkErr.suboptimalKhr) rt1 (by decide) (by simp)).1⟩

/-- State of the frame synchronizer, abstracted from `draw_frame`
(`renderer.rs` lines 261-313): `k` counts the frames submitted so far
(frame `j` is submitted on slot `j % N`, because `current_frame`
advances by one modulo `MAX_FRAMES_IN_FLIGHT` after each submitted
frame and does not advance on the stale-acquire early return); `lastSub
t` is the frame most recently submitted on slot `t` (the submission
that armed that slot's fence); `observed j` records whether the CPU has
observed frame `j`'s fence signaled via `wait_for_fences`. -/
structure SyncState where
  k : Nat
  lastSub : Nat → Option Nat
  observed : Nat → Bool

/-- The synchronizer state at renderer construction: no frame
submitted, every per-slot fence created already signaled
(`FenceCreateFlags::SIGNALED`, `renderer.rs` line 98), so the first
wait on each slot observes no prior frame. -/
def initSync : SyncState :=
  { k := 0, lastSub := fun _ => none, observed := fun _ => false }

/-- The `wait_for_fences` call at the top of `draw_frame` (line 276):
block until the current slot's fence is signaled, thereby observing the
completion of the frame last submitted on slot `k % N`, if any. -/
def waitPhase (N : Nat) (s : SyncState) : SyncState :=
  { s with observed := fun j => s.observed j || decide (s.lastSub (s.k % N) = some j) }

/-- The `queue_submit` call of `draw_frame` (line 300) followed by the
frame-index advance (line 312): frame `k` is submitted on slot `k % N`,
re-arming that slot's fence. -/
def submitPhase (N : Nat) (s : SyncState) : SyncState :=
  { s with k := s.k + 1,
           lastSub := fun t => if t = s.k % N then some s.k else s.lastSub t }

/-- One `draw_frame` call: wait on the slot fence, then either submit a
frame (`ok = true`) or return early on a stale acquisition (`ok =
false`, the `ERROR_OUT_OF_DATE_KHR` path, which neither resets the
fence, nor submits, nor advances the slot index). -/
def drawStep (N : Nat) (s : SyncState) (ok : Bool) : SyncState :=
  if ok then submitPhase N (waitPhase N s) else waitPhase N s

/-- A sequence of `draw_frame` calls starting at renderer construction,
`true` marking calls whose acquisition succeeded. -/
def syncRun (N : Nat) (steps : List Bool) : SyncState :=
  steps.foldl (drawStep N) initSync

/-- The number of frames submitted whose fence has not been observed
signaled by the CPU. -/
def unobservedCount (s : SyncState) : Nat :=
  ((Finset.range s.k).filter (fun j => s.observed j = false)).card

/-- Synchronizer invariant: `lastSub t` is exactly the most recent
frame with slot residue `t`, and every frame at distance at least `N`
behind the frame counter has had its fence observed. -/
def SyncInv (N : Nat) (s : SyncState) : Prop :=
  (∀ t j, s.lastSub t = some j ↔ j < s.k ∧ j % N = t ∧ s.k ≤ j + N) ∧
  (∀ j, j + N < s.k → s.observed j = true)

/-- Two numbers with the same residue modulo `N` differ by at least
`N` when distinct. -/
theorem mod_eq_lt_add_le {N j k : Nat} (hmod : j % N = k % N) (hlt : j < k) :
    j + N ≤ k := by
  have hdvd : N ∣ k - j := (Nat.modEq_iff_dvd' hlt.le).mp hmod
  have hpos : 0 < k - j := by omega
  have := Nat.le_of_dvd hpos hdvd
  omega

/-- The initial synchronizer state satisfies the invariant. -/
theorem syncInv_init (N : Nat) : SyncInv N initSync := by
  constructor
  · intro t j
    simp [initSync]
  · intro j h
    simp [initSync] at h

/-- `waitPhase` preserves the invariant (it only observes more). -/
theorem syncInv_waitPhase (N : Nat) (s : SyncState) (h : SyncInv N s) :
    SyncInv N (waitPhase N s) := by
  refine ⟨h.1, ?_⟩
  intro j hj
  simp [waitPhase, h.2 j hj]

/-- After the fence wait of a `draw_frame` call, every frame at
distance at least `N` behind the next submission — including the frame
that previously used the current slot — has been observed signaled. -/
theorem waitPhase_observes (N : Nat) (s : SyncState) (hN : 0 < N) (h : SyncInv N s) :
    ∀ j, j + N ≤ s.k → (waitPhase N s).observed j = true := by
  intro j hj
  rcases Nat.lt_or_ge (j + N) s.k with hlt | hge
  · simp [waitPhase, h.2 j hlt]
  · have hk : s.k = j + N := by omega
    have hlast : s.lastSub (s.k % N) = some j := by
      rw [h.1]
      refine ⟨by omega, ?_, by omega⟩
      rw [hk]
      simp [Nat.add_mod_right]
    simp [waitPhase, hlast]

/-- A `draw_frame` call preserves the invariant. -/
theorem syncInv_drawStep (N : Nat) (hN : 0 < N) (s : SyncState) (h : SyncInv N s)
    (ok : Bool) : SyncInv N (drawStep N s ok) := by
  cases ok
  · exact syncInv_waitPhase N s h
  · have hobs := waitPhase_observes N s hN h
    constructor
    · intro t j
      show (if t = s.k % N then some s.k else s.lastSub t) = some j ↔
        j < s.k + 1 ∧ j % N = t ∧ s.k + 1 ≤ j + N
      by_cases ht : t = s.k % N
      · subst ht
        rw [if_pos rfl]
        constructor
        · intro hsome
          injection hsome with hsk
          subst hsk
          exact ⟨Nat.lt_succ_self _, rfl, by omega⟩
        · rintro ⟨hj1, hj2, hj3⟩
          rcases Nat.lt_or_ge j s.k with hlt | hge
          · have hcon := mod_eq_lt_add_le hj2 hlt
            omega
          · have hjk : j = s.k := by omega
            rw [hjk]
      · rw [if_neg ht, h.1]
        constructor
        · rintro ⟨hj1, hj2, hj3⟩
          refine ⟨by omega, hj2, ?_⟩
          rcases Nat.eq_or_lt_of_le hj3 with heq | hlt
          · exact absurd (show t = s.k % N by
              rw [← hj2, heq, Nat.add_mod_right]) ht
          · omega
        · rintro ⟨hj1, hj2, hj3⟩
          have hne : j ≠ s.k := by
            rintro rfl
            exact ht hj2.symm
          exact ⟨by omega, hj2, by omega⟩
    · intro j hj
      have hj2 : j + N < s.k + 1 := hj
      exact hobs j (by omega)

/-- The invariant holds after any sequence of `draw_frame` calls. -/
theorem syncInv_syncRun (N : Nat) (hN : 0 < N) (steps : List Bool) :
    SyncInv N (syncRun N steps) := by
  suffices hgen : ∀ s : SyncState, SyncInv N s →
      SyncInv N (steps.foldl (drawStep N) s) from
    hgen initSync (syncInv_init N)
  induction steps with
  | nil => intro s hs; exact hs
  | cons b bs ih => intro s hs; exact ih _ (syncInv_drawStep N hN s hs b)

/-- At the moment a slot is about to be reused (after the fence wait of
the next `draw_frame` call), at most `N - 1` submitted frames remain
unobserved. -/
theorem unobservedCount_waitPhase_le (N : Nat) (hN : 0 < N) (s : SyncState)
    (h : SyncInv N s) : unobservedCount (waitPhase N s) ≤ N - 1 := by
  have hobs := waitPhase_observes N s hN h
  have hsub : (Finset.range (waitPhase N s).k).filter
      (fun j => (waitPhase N s).observed j = false) ⊆
        Finset.Ico (s.k - (N - 1)) s.k := by
    intro j hj
    simp only [Finset.mem_filter, Finset.mem_range] at hj
    have hk : (waitPhase N s).k = s.k := rfl
    rw [hk] at hj
    have hno : ¬ j + N ≤ s.k := by
      intro hle
      have h2 := hj.2
      rw [hobs j hle] at h2
      cases h2
    simp only [Finset.mem_Ico]
    omega
  have hcard := Finset.card_le_card hsub
  rw [Nat.card_Ico] at hcard
  unfold unobservedCount
  omega

/-- C4: for every sequence of `draw_frame` calls with ring size
`N ≥ 2`, whenever a slot's resources are about to be reused (the fence
wait at the top of the next call has completed), at most `N - 1` frames
have been submitted without their fence having been observed signaled —
the CPU never races more than `N - 1` frames ahead of the GPU at a
reuse point. -/
theorem draw_frame_frames_in_flight_bound (N : Nat) (hN : 2 ≤ N)
    (steps : List Bool) :
    unobservedCount (waitPhase N (syncRun N steps)) ≤ N - 1 :=
  unobservedCount_waitPhase_le N (by omega) _ (syncInv_syncRun N (by omega) steps)

/-- Witness for `draw_frame_frames_in_flight_bound` at
`N = MAX_FRAMES_IN_FLIGHT` and a concrete call sequence containing a
stale-acquire skip. -/
theorem draw_frame_frames_in_flight_bound_witness :
    2 ≤ MAX_FRAMES_IN_FLIGHT ∧
    unobservedCount (waitPhase MAX_FRAMES_IN_FLIGHT
        (syncRun MAX_FRAMES_IN_FLIGHT [true, true, false, true]))
      ≤ MAX_FRAMES_IN_FLIGHT - 1 :=
  ⟨by decide,
    draw_frame_frames_in_flight_bound MAX_FRAMES_IN_FLIGHT (by decide)
      [true, true, false, true]⟩

end Cubulous
